import Mathlib

/-!
Shallow embedding of the Fireblocks Python SDK client
(`src/fireblocks_sdk/sdk.py`) and of its token-signing collaborator, for
checking the natural-language specification against the code.

The repository ships a single source file, `sdk.py`.  The companion modules
it imports (`sdk_token_provider.py` with `SdkTokenProvider.sign_jwt`, and
`api_types.py` with the enumerated constant lists and the peer-path classes)
are not part of the sources; where a claim depends on them they are modelled
from the specification, and each such definition says so in its doc comment.

Conventions of the embedding:
* Python JSON-serializable values are the inductive `Json`.
* Python dynamic objects passed as `source` / `destination` are `PyObj`,
  which records the object's class and its `__dict__`.
* The token provider held by the client is abstracted, at each call site, as
  a function `signer : String → Option Json → String` standing for
  `self.token_provider.sign_jwt` with its ambient clock and randomness
  already resolved; the request helpers only forward arguments to it.
* The HTTP library (`requests`) is the external transport: a function from
  the assembled request (`HttpCall`) to a response (`HttpResponse`, carrying
  `status_code`, `text`, and the value `.json()` would decode).
* Each operation returns an `OpResult`: the Python return-value-or-exception
  (`Except PyError Json`), the list of `sign_jwt` invocations, the list of
  transport invocations (in order), and the client state after the call.
-/

/-- Python JSON-serializable values (`dict`s keep insertion order). -/
inductive Json where
  | null
  | bool (b : Bool)
  | num (n : Int)
  | str (s : String)
  | arr (elems : List Json)
  | obj (fields : List (String × Json))

/-- Exceptions the embedded code can raise: `FireblocksApiException`
(from `api_types`) and Python's built-in `TypeError`. -/
inductive PyError where
  | fireblocksApi (msg : String)
  | typeErr (msg : String)
deriving Repr, DecidableEq

/-- Python truthiness of an `int` value (`0` is falsy). -/
def pyTruthyInt (n : Int) : Bool := n != 0

/-- Python truthiness of an `Optional[str]` (`None` and `""` are falsy). -/
def pyTruthyOptStr : Option String → Bool
  | none => false
  | some s => s != ""

/-- Python truthiness of an `Optional[int]` (`None` and `0` are falsy). -/
def pyTruthyOptInt : Option Int → Bool
  | none => false
  | some n => n != 0

/-- UTF-8 encoding of one character, as byte values (standard RFC 3629
encoding, used by `urllib.parse.quote_plus` before percent-encoding). -/
def utf8Bytes (c : Char) : List Nat :=
  let n := c.toNat
  if n < 128 then [n]
  else if n < 2048 then [192 + n / 64, 128 + n % 64]
  else if n < 65536 then [224 + n / 4096, 128 + n / 64 % 64, 128 + n % 64]
  else [240 + n / 262144, 128 + n / 4096 % 64, 128 + n / 64 % 64, 128 + n % 64]

/-- Uppercase hexadecimal digit for a value below 16. -/
def hexDigit (n : Nat) : Char :=
  if n < 10 then Char.ofNat (48 + n) else Char.ofNat (55 + n)

/-- Is this byte in `urllib`'s always-safe set
(ASCII letters, digits, `_`, `.`, `-`, `~`)? -/
def urlSafeByte (b : Nat) : Bool :=
  (65 ≤ b && b ≤ 90) || (97 ≤ b && b ≤ 122) || (48 ≤ b && b ≤ 57) ||
    b == 95 || b == 46 || b == 45 || b == 126

/-- Percent-encoding of one byte as `urllib.parse.quote_plus` performs it:
safe bytes stand for themselves, a space becomes `+`, anything else becomes
`%XX` with uppercase hex digits. -/
def quotePlusByte (b : Nat) : String :=
  if urlSafeByte b then String.singleton (Char.ofNat b)
  else if b == 32 then "+"
  else String.singleton '%' ++ String.singleton (hexDigit (b / 16)) ++
    String.singleton (hexDigit (b % 16))

/-- `urllib.parse.quote_plus` with its default `safe=''`: percent-encode the
UTF-8 bytes of the string, mapping spaces to `+`. -/
def quote_plus (s : String) : String :=
  String.join ((s.data.flatMap utf8Bytes).map quotePlusByte)

/-- `urllib.parse.urlencode` on a dict whose values were already converted
to strings: `key=value` pairs in insertion order, joined by `&`, both sides
quoted with `quote_plus`. -/
def urlencode (params : List (String × String)) : String :=
  String.intercalate "&" (params.map fun kv => quote_plus kv.1 ++ "=" ++ quote_plus kv.2)

/-- The token provider constructed by `FireblocksSDK.__init__`
(`SdkTokenProvider(private_key, api_key)`); its fields are set at
construction and never written afterwards. -/
structure SdkTokenProvider where
  private_key : String
  api_key : String
deriving Repr, DecidableEq

/-- The client object: the four attributes `__init__` assigns. -/
structure FireblocksSDK where
  private_key : String
  api_key : String
  base_url : String
  token_provider : SdkTokenProvider
deriving Repr, DecidableEq

/-- `FireblocksSDK.__init__(private_key, api_key, api_base_url)`. -/
def fireblocksInit (private_key api_key api_base_url : String) : FireblocksSDK :=
  ⟨private_key, api_key, api_base_url, ⟨private_key, api_key⟩⟩

/-- The default `api_base_url` of `__init__`. -/
def DEFAULT_BASE_URL : String := "https://api.fireblocks.io"

/-- One recorded invocation of `token_provider.sign_jwt`: the path argument
and, when the two-argument form is used (POST/PUT), the body argument. -/
structure SignCall where
  path : String
  body : Option Json

/-- HTTP method of a transport call. -/
inductive Method where
  | GET
  | POST
  | PUT
  | DELETE
deriving Repr, DecidableEq

/-- One assembled transport request, as handed to the `requests` library:
the method, the full URL, the headers dict in insertion order, and the body
object given to serialization (`json=body` for POST, the argument of
`json.dumps(body)` for PUT, absent for GET/DELETE). -/
structure HttpCall where
  method : Method
  url : String
  headers : List (String × String)
  body : Option Json

/-- A transport response: `status_code`, the raw body `text`, and the value
that `response.json()` decodes from that body (the decoder belongs to the
external `requests` library). -/
structure HttpResponse where
  status_code : Nat
  text : String
  json : Json

/-- The transport collaborator (`requests.get/post/put/delete`). -/
def Transport : Type := HttpCall → HttpResponse

/-- Abstraction of `self.token_provider.sign_jwt` at one instant: clock and
randomness resolved, so a call is a function of the path and optional body. -/
def Signer : Type := String → Option Json → String

/-- Outcome of one SDK operation: Python result or exception, the `sign_jwt`
invocations made, the transport invocations made, and the client afterwards. -/
structure OpResult where
  result : Except PyError Json
  signCalls : List SignCall
  httpCalls : List HttpCall
  sdkAfter : FireblocksSDK

/-- The request `_get_request` assembles for a path: headers
`X-API-Key: api_key` and `Authorization: Bearer <sign_jwt(path)>`, URL
`base_url + path`, no body. -/
def get_request_call (sdk : FireblocksSDK) (signer : Signer) (path : String) : HttpCall :=
  ⟨Method.GET, sdk.base_url ++ path,
    [("X-API-Key", sdk.api_key), ("Authorization", "Bearer " ++ signer path none)],
    none⟩

/-- `FireblocksSDK._get_request`: sign the path, send GET, raise
`FireblocksApiException` carrying `response.text` when `status_code >= 300`,
otherwise return `response.json()`. -/
def get_request (sdk : FireblocksSDK) (signer : Signer) (transport : Transport)
    (path : String) : OpResult :=
  let call := get_request_call sdk signer path
  let response := transport call
  let result : Except PyError Json :=
    if 300 ≤ response.status_code then
      Except.error (PyError.fireblocksApi ("Got an error from fireblocks server: " ++ response.text))
    else
      Except.ok response.json
  ⟨result, [⟨path, none⟩], [call], sdk⟩

/-- The request `_delete_request` assembles (same headers as GET). -/
def delete_request_call (sdk : FireblocksSDK) (signer : Signer) (path : String) : HttpCall :=
  ⟨Method.DELETE, sdk.base_url ++ path,
    [("X-API-Key", sdk.api_key), ("Authorization", "Bearer " ++ signer path none)],
    none⟩

/-- `FireblocksSDK._delete_request`. -/
def delete_request (sdk : FireblocksSDK) (signer : Signer) (transport : Transport)
    (path : String) : OpResult :=
  let call := delete_request_call sdk signer path
  let response := transport call
  let result : Except PyError Json :=
    if 300 ≤ response.status_code then
      Except.error (PyError.fireblocksApi ("Got an error from fireblocks server: " ++ response.text))
    else
      Except.ok response.json
  ⟨result, [⟨path, none⟩], [call], sdk⟩

/-- The request `_post_request` assembles: token signed over `(path, body)`,
body handed to the transport as `json=body`. -/
def post_request_call (sdk : FireblocksSDK) (signer : Signer) (path : String)
    (body : Json) : HttpCall :=
  ⟨Method.POST, sdk.base_url ++ path,
    [("X-API-Key", sdk.api_key), ("Authorization", "Bearer " ++ signer path (some body))],
    some body⟩

/-- `FireblocksSDK._post_request` (the `body={}` default is supplied
explicitly by the callers that omit it). -/
def post_request (sdk : FireblocksSDK) (signer : Signer) (transport : Transport)
    (path : String) (body : Json) : OpResult :=
  let call := post_request_call sdk signer path body
  let response := transport call
  let result : Except PyError Json :=
    if 300 ≤ response.status_code then
      Except.error (PyError.fireblocksApi ("Got an error from fireblocks server: " ++ response.text))
    else
      Except.ok response.json
  ⟨result, [⟨path, some body⟩], [call], sdk⟩

/-- The request `_put_request` assembles: token signed over `(path, body)`,
an extra `Content-Type` header, body serialized via `json.dumps(body)` from
the same object. -/
def put_request_call (sdk : FireblocksSDK) (signer : Signer) (path : String)
    (body : Json) : HttpCall :=
  ⟨Method.PUT, sdk.base_url ++ path,
    [("X-API-Key", sdk.api_key), ("Authorization", "Bearer " ++ signer path (some body)),
     ("Content-Type", "application/json")],
    some body⟩

/-- `FireblocksSDK._put_request`. -/
def put_request (sdk : FireblocksSDK) (signer : Signer) (transport : Transport)
    (path : String) (body : Json) : OpResult :=
  let call := put_request_call sdk signer path body
  let response := transport call
  let result : Except PyError Json :=
    if 300 ≤ response.status_code then
      Except.error (PyError.fireblocksApi ("Got an error from fireblocks server: " ++ response.text))
    else
      Except.ok response.json
  ⟨result, [⟨path, some body⟩], [call], sdk⟩

/-- Modelled from the spec: `TRANSACTION_STATUS_TYPES` lives in
`api_types.py`, which is absent from the sources; the list is taken from the
status enumeration the spec and the `get_transactions` docstring give. -/
def TRANSACTION_STATUS_TYPES : List String :=
  ["SUBMITTED", "QUEUED", "PENDING_SIGNATURE", "PENDING_AUTHORIZATION",
   "PENDING_3RD_PARTY_MANUAL_APPROVAL", "PENDING_3RD_PARTY", "BROADCASTING",
   "CONFIRMING", "COMPLETED", "PENDING_AML_CHECKUP", "PARTIALLY_COMPLETED",
   "CANCELLING", "CANCELLED", "REJECTED", "FAILED", "TIMEOUT", "BLOCKED"]

/-- Modelled from the spec: `TRANSACTION_TYPES` lives in the absent
`api_types.py`; per the spec and the `create_transaction` docstring the
allowed transaction types are TRANSFER, MINT and BURN. -/
def TRANSACTION_TYPES : List String := ["TRANSFER", "MINT", "BURN"]

/-- Modelled from the spec: `TRANSACTION_TRANSFER` (the default `tx_type`)
from the absent `api_types.py`; the docstring says the default is TRANSFER. -/
def TRANSACTION_TRANSFER : String := "TRANSFER"

/-- `FireblocksSDK.get_transactions(before, after, status, limit, order_by)`:
validate `status` when truthy, collect the truthy filters into the query
string in insertion order, and issue a GET. -/
def get_transactions (sdk : FireblocksSDK) (signer : Signer) (transport : Transport)
    (before after : Int) (status : Option String) (limit : Option Int)
    (order_by : Option String) : OpResult :=
  let path := "/v1/transactions"
  if pyTruthyOptStr status && !(TRANSACTION_STATUS_TYPES.contains (status.getD "")) then
    ⟨Except.error (PyError.fireblocksApi ("Got invalid transaction type: " ++ status.getD "")),
      [], [], sdk⟩
  else
    let params : List (String × String) :=
      (if pyTruthyInt before then [("before", toString before)] else []) ++
      (if pyTruthyInt after then [("after", toString after)] else []) ++
      (if pyTruthyOptStr status then [("status", status.getD "")] else []) ++
      (if pyTruthyOptStr order_by then [("orderBy", order_by.getD "")] else []) ++
      (if pyTruthyOptInt limit then [("limit", toString (limit.getD 0))] else [])
    let path := if params.isEmpty then path else path ++ "?" ++ urlencode params
    get_request sdk signer transport path

/-- A dynamic Python object passed where the SDK expects a peer path:
either an instance of `TransferPeerPath`, an instance of
`DestinationTransferPeerPath`, or an instance of some other class (whose
name Python would print in error messages).  Each carries its `__dict__`. -/
inductive PyObj where
  | transferPeerPath (dict : List (String × Json))
  | destinationTransferPeerPath (dict : List (String × Json))
  | other (className : String) (dict : List (String × Json))

/-- The object's `__dict__`. -/
def PyObj.dict : PyObj → List (String × Json)
  | .transferPeerPath d => d
  | .destinationTransferPeerPath d => d
  | .other _ d => d

/-- Modelled from the spec: the class hierarchy of `api_types.py` is absent
from the sources; `DestinationTransferPeerPath` is taken as a subclass of
`TransferPeerPath` (the spec treats destination peer paths as a variant of
transfer peer paths), so `isinstance(x, TransferPeerPath)` accepts both. -/
def isinstanceTransferPeerPath : PyObj → Bool
  | .transferPeerPath _ => true
  | .destinationTransferPeerPath _ => true
  | .other _ _ => false

/-- `isinstance(x, (TransferPeerPath, DestinationTransferPeerPath))`. -/
def isinstanceEitherPeerPath : PyObj → Bool
  | .transferPeerPath _ => true
  | .destinationTransferPeerPath _ => true
  | .other _ _ => false

/-- Python truthiness of a JSON-like value (`None`, `False`, `0`, `""`,
empty list and empty dict are falsy). -/
def pyTruthyJson : Json → Bool
  | .null => false
  | .bool b => b
  | .num n => n != 0
  | .str s => s != ""
  | .arr elems => !elems.isEmpty
  | .obj fields => !fields.isEmpty

/-- The message of the `TypeError` Python raises when evaluating
`"literal" + type(x)`: string concatenation with a `type` object fails
before any exception the surrounding code meant to construct. -/
def STR_TYPE_CONCAT_TYPEERROR : String :=
  "can only concatenate str (not \"type\") to str"

/-- `FireblocksSDK.create_transaction(asset_id, amount, source, destination,
fee, gas_price, wait_for_status, tx_type)`: validate `tx_type` against
`TRANSACTION_TYPES`; check `isinstance(source, TransferPeerPath)` — on
failure the error-message expression `"..." + type(source)` itself raises
`TypeError`; build the body dict in insertion order, appending `fee`,
`gasPrice` and `destination` when truthy (the destination check has the same
`TypeError` slip); POST to `/v1/transactions`. -/
def create_transaction (sdk : FireblocksSDK) (signer : Signer) (transport : Transport)
    (asset_id : String) (amount : Json) (source : PyObj) (destination : Option PyObj)
    (fee : Json) (gas_price : Json) (wait_for_status : Bool) (tx_type : String) :
    OpResult :=
  if !(TRANSACTION_TYPES.contains tx_type) then
    ⟨Except.error (PyError.fireblocksApi ("Got invalid transaction type: " ++ tx_type)),
      [], [], sdk⟩
  else if !(isinstanceTransferPeerPath source) then
    ⟨Except.error (PyError.typeErr STR_TYPE_CONCAT_TYPEERROR), [], [], sdk⟩
  else
    let body : List (String × Json) :=
      [("assetId", Json.str asset_id), ("amount", amount),
       ("source", Json.obj source.dict), ("waitForStatus", Json.bool wait_for_status),
       ("operation", Json.str tx_type)]
    let body := if pyTruthyJson fee then body ++ [("fee", fee)] else body
    let body := if pyTruthyJson gas_price then body ++ [("gasPrice", gas_price)] else body
    match destination with
    | none => post_request sdk signer transport "/v1/transactions" (Json.obj body)
    | some d =>
      if !(isinstanceEitherPeerPath d) then
        ⟨Except.error (PyError.typeErr STR_TYPE_CONCAT_TYPEERROR), [], [], sdk⟩
      else
        post_request sdk signer transport "/v1/transactions"
          (Json.obj (body ++ [("destination", Json.obj d.dict)]))

/-- Modelled from the spec: the claim set `sign_jwt` signs.  The
implementation file `sdk_token_provider.py` is absent from the sources; per
spec §3/§4.1 the claims are `subject` (the API key identifier), a fresh
random `nonce`, `issued-at` = now, `expiry` = now + the fixed validity
window, `uri` = the exact path, and `body-hash` = digest of the canonical
JSON of the body. -/
structure TokenClaims where
  subject : String
  nonce : Nat
  issued_at : Nat
  expiry : Nat
  uri : String
  body_hash : String
deriving Repr, DecidableEq

/-- Modelled from the spec: the fixed token validity window, in seconds
(spec §3: "expiry = issued-at + fixed validity window (e.g., 55 seconds)"). -/
def TOKEN_VALIDITY_SECONDS : Nat := 55

/-- Modelled from the spec: construction of the claim set inside
`SdkTokenProvider.sign_jwt` (absent from the sources).  The ambient
randomness source and clock are made explicit arguments: `nonce` is the
fresh random value drawn for this call and `now` the clock reading; the
body digest is abstracted as the `bodyHash` argument since the claims under
check do not constrain the digest function. -/
def sign_jwt_claims (provider : SdkTokenProvider) (path : String) (bodyHash : String)
    (nonce : Nat) (now : Nat) : TokenClaims :=
  ⟨provider.api_key, nonce, now, now + TOKEN_VALIDITY_SECONDS, path, bodyHash⟩

/-- A concrete client used to instantiate universally quantified statements. -/
def sdkEx : FireblocksSDK := fireblocksInit "pem-key" "api-key-uuid" DEFAULT_BASE_URL

/-- A concrete signer stub (deterministic; freshness is irrelevant to the
client-side statements it instantiates). -/
def signerEx : Signer := fun path _ => "token-for-" ++ path

/-- Transport stub answering 404 with raw body `not found`. -/
def stub404 : Transport := fun _ => ⟨404, "not found", Json.null⟩

/-- Transport stub answering 200 with the JSON body `\x7b"id":"abc"\x7d`. -/
def stub200 : Transport :=
  fun _ => ⟨200, "\x7b\"id\":\"abc\"\x7d", Json.obj [("id", Json.str "abc")]⟩

/-- A concrete `TransferPeerPath` instance. -/
def srcEx : PyObj := PyObj.transferPeerPath [("type", Json.str "VAULT_ACCOUNT"), ("id", Json.str "0")]

/-- C1: for every request-issuing helper, the path handed to `sign_jwt` is
byte-identical to the path appended to `base_url` in the transport call, and
for POST and PUT the body handed to `sign_jwt` is the very same object handed
to the transport for serialization. -/
theorem C1_sign_binding (sdk : FireblocksSDK) (signer : Signer) (transport : Transport)
    (path : String) (body : Json) :
    ((get_request sdk signer transport path).signCalls = [⟨path, none⟩] ∧
      (get_request sdk signer transport path).httpCalls = [get_request_call sdk signer path] ∧
      (get_request_call sdk signer path).url = sdk.base_url ++ path ∧
      (get_request_call sdk signer path).body = none) ∧
    ((delete_request sdk signer transport path).signCalls = [⟨path, none⟩] ∧
      (delete_request sdk signer transport path).httpCalls = [delete_request_call sdk signer path] ∧
      (delete_request_call sdk signer path).url = sdk.base_url ++ path ∧
      (delete_request_call sdk signer path).body = none) ∧
    ((post_request sdk signer transport path body).signCalls = [⟨path, some body⟩] ∧
      (post_request sdk signer transport path body).httpCalls = [post_request_call sdk signer path body] ∧
      (post_request_call sdk signer path body).url = sdk.base_url ++ path ∧
      (post_request_call sdk signer path body).body = some body) ∧
    ((put_request sdk signer transport path body).signCalls = [⟨path, some body⟩] ∧
      (put_request sdk signer transport path body).httpCalls = [put_request_call sdk signer path body] ∧
      (put_request_call sdk signer path body).url = sdk.base_url ++ path ∧
      (put_request_call sdk signer path body).body = some body) :=
  ⟨⟨rfl, rfl, rfl, rfl⟩, ⟨rfl, rfl, rfl, rfl⟩, ⟨rfl, rfl, rfl, rfl⟩, ⟨rfl, rfl, rfl, rfl⟩⟩

/-- C2: every helper raises `FireblocksApiException` carrying the raw
response body exactly when the status code is ≥ 300, and returns the decoded
JSON otherwise; concretely, a 404 with body `not found` raises an error whose
detail contains `not found`, and a 200 with body `\x7b"id":"abc"\x7d` returns
the decoded object. -/
theorem C2_response_handling :
    (∀ (sdk : FireblocksSDK) (signer : Signer) (transport : Transport) (path : String) (body : Json),
      (get_request sdk signer transport path).result =
        (if 300 ≤ (transport (get_request_call sdk signer path)).status_code then
          Except.error (PyError.fireblocksApi
            ("Got an error from fireblocks server: " ++ (transport (get_request_call sdk signer path)).text))
        else Except.ok (transport (get_request_call sdk signer path)).json) ∧
      (delete_request sdk signer transport path).result =
        (if 300 ≤ (transport (delete_request_call sdk signer path)).status_code then
          Except.error (PyError.fireblocksApi
            ("Got an error from fireblocks server: " ++ (transport (delete_request_call sdk signer path)).text))
        else Except.ok (transport (delete_request_call sdk signer path)).json) ∧
      (post_request sdk signer transport path body).result =
        (if 300 ≤ (transport (post_request_call sdk signer path body)).status_code then
          Except.error (PyError.fireblocksApi
            ("Got an error from fireblocks server: " ++ (transport (post_request_call sdk signer path body)).text))
        else Except.ok (transport (post_request_call sdk signer path body)).json) ∧
      (put_request sdk signer transport path body).result =
        (if 300 ≤ (transport (put_request_call sdk signer path body)).status_code then
          Except.error (PyError.fireblocksApi
            ("Got an error from fireblocks server: " ++ (transport (put_request_call sdk signer path body)).text))
        else Except.ok (transport (put_request_call sdk signer path body)).json)) ∧
    (∀ (sdk : FireblocksSDK) (signer : Signer) (path : String),
      (get_request sdk signer stub404 path).result =
        Except.error (PyError.fireblocksApi "Got an error from fireblocks server: not found") ∧
      (∃ a b : String, "Got an error from fireblocks server: not found" = a ++ "not found" ++ b) ∧
      (get_request sdk signer stub200 path).result = Except.ok (Json.obj [("id", Json.str "abc")])) :=
  ⟨fun _ _ _ _ _ => ⟨rfl, rfl, rfl, rfl⟩,
   fun _ _ _ => ⟨rfl, ⟨"Got an error from fireblocks server: ", "", rfl⟩, rfl⟩⟩

/-- C5: every outgoing request (GET, POST, PUT, DELETE) carries the
`X-API-Key` header with the client's API key and an `Authorization` header
equal to `Bearer ` followed by the token obtained from the signer for that
request's exact path (and body, for POST/PUT). -/
theorem C5_auth_headers (sdk : FireblocksSDK) (signer : Signer) (transport : Transport)
    (path : String) (body : Json) :
    ((get_request sdk signer transport path).httpCalls = [get_request_call sdk signer path] ∧
      ("X-API-Key", sdk.api_key) ∈ (get_request_call sdk signer path).headers ∧
      ("Authorization", "Bearer " ++ signer path none) ∈ (get_request_call sdk signer path).headers) ∧
    ((delete_request sdk signer transport path).httpCalls = [delete_request_call sdk signer path] ∧
      ("X-API-Key", sdk.api_key) ∈ (delete_request_call sdk signer path).headers ∧
      ("Authorization", "Bearer " ++ signer path none) ∈ (delete_request_call sdk signer path).headers) ∧
    ((post_request sdk signer transport path body).httpCalls = [post_request_call sdk signer path body] ∧
      ("X-API-Key", sdk.api_key) ∈ (post_request_call sdk signer path body).headers ∧
      ("Authorization", "Bearer " ++ signer path (some body)) ∈ (post_request_call sdk signer path body).headers) ∧
    ((put_request sdk signer transport path body).httpCalls = [put_request_call sdk signer path body] ∧
      ("X-API-Key", sdk.api_key) ∈ (put_request_call sdk signer path body).headers ∧
      ("Authorization", "Bearer " ++ signer path (some body)) ∈ (put_request_call sdk signer path body).headers) := by
  refine ⟨⟨rfl, ?_, ?_⟩, ⟨rfl, ?_, ?_⟩, ⟨rfl, ?_, ?_⟩, ⟨rfl, ?_, ?_⟩⟩ <;>
    simp [get_request_call, delete_request_call, post_request_call, put_request_call]

/-- C6: two `sign` calls with identical `(path, body)` but a fresh nonce and
a clock that has not gone backwards produce claim sets with different nonce
values and non-decreasing issued-at values; in particular the two tokens are
never equal (`sign` is not idempotent). -/
theorem C6_sign_not_idempotent (provider : SdkTokenProvider) (path bodyHash : String)
    (n1 t1 n2 t2 : Nat) (hn : n1 ≠ n2) (ht : t1 ≤ t2) :
    (sign_jwt_claims provider path bodyHash n1 t1).nonce ≠
      (sign_jwt_claims provider path bodyHash n2 t2).nonce ∧
    (sign_jwt_claims provider path bodyHash n1 t1).issued_at ≤
      (sign_jwt_claims provider path bodyHash n2 t2).issued_at ∧
    sign_jwt_claims provider path bodyHash n1 t1 ≠ sign_jwt_claims provider path bodyHash n2 t2 := by
  refine ⟨hn, ht, fun h => hn ?_⟩
  exact congrArg TokenClaims.nonce h

/-- Witness for C6 at concrete inputs. -/
theorem C6_sign_not_idempotent_witness :
    (sign_jwt_claims ⟨"k", "a"⟩ "/v1/transactions" "h" 0 100).nonce ≠
      (sign_jwt_claims ⟨"k", "a"⟩ "/v1/transactions" "h" 1 100).nonce ∧
    (sign_jwt_claims ⟨"k", "a"⟩ "/v1/transactions" "h" 0 100).issued_at ≤
      (sign_jwt_claims ⟨"k", "a"⟩ "/v1/transactions" "h" 1 100).issued_at ∧
    sign_jwt_claims ⟨"k", "a"⟩ "/v1/transactions" "h" 0 100 ≠
      sign_jwt_claims ⟨"k", "a"⟩ "/v1/transactions" "h" 1 100 :=
  C6_sign_not_idempotent ⟨"k", "a"⟩ "/v1/transactions" "h" 0 100 1 100
    (by decide) (by decide)

/-- C7: for every generated claim set, `expiry - issued_at` equals the fixed
validity window constant. -/
theorem C7_validity_window (provider : SdkTokenProvider) (path bodyHash : String)
    (nonce now : Nat) :
    (sign_jwt_claims provider path bodyHash nonce now).expiry -
      (sign_jwt_claims provider path bodyHash nonce now).issued_at = TOKEN_VALIDITY_SECONDS := by
  simp [sign_jwt_claims]

/-- C3: a truthy `status` outside the allowed transaction-status list makes
`get_transactions` raise `FireblocksApiException` with zero signer and zero
transport invocations, and a `tx_type` outside the allowed transaction-type
list makes `create_transaction` do the same. -/
theorem C3_fail_fast_validation :
    (∀ (sdk : FireblocksSDK) (signer : Signer) (transport : Transport) (before after : Int)
        (s : String) (limit : Option Int) (ob : Option String),
      s ≠ "" → s ∉ TRANSACTION_STATUS_TYPES →
      (get_transactions sdk signer transport before after (some s) limit ob).result =
        Except.error (PyError.fireblocksApi ("Got invalid transaction type: " ++ s)) ∧
      (get_transactions sdk signer transport before after (some s) limit ob).httpCalls = [] ∧
      (get_transactions sdk signer transport before after (some s) limit ob).signCalls = []) ∧
    (∀ (sdk : FireblocksSDK) (signer : Signer) (transport : Transport) (asset : String)
        (amount : Json) (source : PyObj) (dest : Option PyObj) (fee gas : Json)
        (wfs : Bool) (tx : String),
      tx ∉ TRANSACTION_TYPES →
      (create_transaction sdk signer transport asset amount source dest fee gas wfs tx).result =
        Except.error (PyError.fireblocksApi ("Got invalid transaction type: " ++ tx)) ∧
      (create_transaction sdk signer transport asset amount source dest fee gas wfs tx).httpCalls = [] ∧
      (create_transaction sdk signer transport asset amount source dest fee gas wfs tx).signCalls = []) := by
  constructor
  · intro sdk signer transport before after s limit ob hs hmem
    have h1 : pyTruthyOptStr (some s) = true := by simp [pyTruthyOptStr, hs]
    have h2 : TRANSACTION_STATUS_TYPES.contains s = false := by simpa using hmem
    unfold get_transactions
    rw [h1]
    simp only [Option.getD_some]
    rw [h2]
    exact ⟨rfl, rfl, rfl⟩
  · intro sdk signer transport asset amount source dest fee gas wfs tx htx
    have hc : TRANSACTION_TYPES.contains tx = false := by simpa using htx
    unfold create_transaction
    rw [hc]
    exact ⟨rfl, rfl, rfl⟩

/-- Witness for C3 at concrete disallowed values. -/
theorem C3_fail_fast_validation_witness :
    (get_transactions sdkEx signerEx stub200 0 0 (some "BOGUS") none none).httpCalls = [] ∧
    (create_transaction sdkEx signerEx stub200 "BTC" (Json.num 1) srcEx none Json.null
      Json.null false "BOGUS").httpCalls = [] :=
  ⟨(C3_fail_fast_validation.1 sdkEx signerEx stub200 0 0 "BOGUS" none none
      (by decide) (by decide)).2.1,
   (C3_fail_fast_validation.2 sdkEx signerEx stub200 "BTC" (Json.num 1) srcEx none Json.null
      Json.null false "BOGUS" (by decide)).2.1⟩

/-- C4 counterexample: `order_by` is not validated.  Called with the
disallowed ordering key `bogus`, `get_transactions` does not fail: it issues
exactly one transport request, with `orderBy=bogus` in the query string, and
returns the decoded response. -/
theorem C4_counterexample_order_by_unvalidated :
    (get_transactions sdkEx signerEx stub200 0 0 none none (some "bogus")).httpCalls =
      [get_request_call sdkEx signerEx "/v1/transactions?orderBy=bogus"] ∧
    (get_transactions sdkEx signerEx stub200 0 0 none none (some "bogus")).httpCalls.length = 1 ∧
    (get_transactions sdkEx signerEx stub200 0 0 none none (some "bogus")).result =
      Except.ok (Json.obj [("id", Json.str "abc")]) :=
  ⟨rfl, rfl, rfl⟩

/-- C4 amended: transaction status and transaction type are validated by
membership in literal lists at call time, but the ordering key is not: any
truthy `order_by` value, allowed or not, is passed through unvalidated as the
`orderBy` query parameter of the issued request. -/
theorem C4_amended_enum_validation :
    (∀ (sdk : FireblocksSDK) (signer : Signer) (transport : Transport) (before after : Int)
        (s : String) (limit : Option Int) (ob : Option String),
      s ≠ "" → s ∉ TRANSACTION_STATUS_TYPES →
      (get_transactions sdk signer transport before after (some s) limit ob).httpCalls = [] ∧
      (get_transactions sdk signer transport before after (some s) limit ob).result =
        Except.error (PyError.fireblocksApi ("Got invalid transaction type: " ++ s))) ∧
    (∀ (sdk : FireblocksSDK) (signer : Signer) (transport : Transport) (asset : String)
        (amount : Json) (source : PyObj) (dest : Option PyObj) (fee gas : Json)
        (wfs : Bool) (tx : String),
      tx ∉ TRANSACTION_TYPES →
      (create_transaction sdk signer transport asset amount source dest fee gas wfs tx).httpCalls = [] ∧
      (create_transaction sdk signer transport asset amount source dest fee gas wfs tx).result =
        Except.error (PyError.fireblocksApi ("Got invalid transaction type: " ++ tx))) ∧
    (∀ (sdk : FireblocksSDK) (signer : Signer) (transport : Transport) (ob : String),
      ob ≠ "" →
      (get_transactions sdk signer transport 0 0 none none (some ob)).httpCalls =
        [get_request_call sdk signer ("/v1/transactions?" ++ urlencode [("orderBy", ob)])] ∧
      (get_transactions sdk signer transport 0 0 none none (some ob)).signCalls =
        [⟨"/v1/transactions?" ++ urlencode [("orderBy", ob)], none⟩]) := by
  refine ⟨?_, ?_, ?_⟩
  · intro sdk signer transport before after s limit ob hs hmem
    have h1 : pyTruthyOptStr (some s) = true := by simp [pyTruthyOptStr, hs]
    have h2 : TRANSACTION_STATUS_TYPES.contains s = false := by simpa using hmem
    unfold get_transactions
    rw [h1]
    simp only [Option.getD_some]
    rw [h2]
    exact ⟨rfl, rfl⟩
  · intro sdk signer transport asset amount source dest fee gas wfs tx htx
    have hc : TRANSACTION_TYPES.contains tx = false := by simpa using htx
    unfold create_transaction
    rw [hc]
    exact ⟨rfl, rfl⟩
  · intro sdk signer transport ob hob
    have h1 : pyTruthyOptStr (some ob) = true := by simp [pyTruthyOptStr, hob]
    unfold get_transactions
    rw [h1]
    exact ⟨rfl, rfl⟩

/-- Witness for the amended C4 at concrete inputs. -/
theorem C4_amended_enum_validation_witness :
    (get_transactions sdkEx signerEx stub200 0 0 (some "NOT_A_STATUS") none none).httpCalls = [] ∧
    (create_transaction sdkEx signerEx stub200 "ETH" (Json.num 2) srcEx none Json.null
      Json.null false "NOT_A_TYPE").httpCalls = [] ∧
    (get_transactions sdkEx signerEx stub200 0 0 none none (some "lastUpdatedX")).httpCalls =
      [get_request_call sdkEx signerEx ("/v1/transactions?" ++ urlencode [("orderBy", "lastUpdatedX")])] :=
  ⟨(C4_amended_enum_validation.1 sdkEx signerEx stub200 0 0 "NOT_A_STATUS" none none
      (by decide) (by decide)).1,
   (C4_amended_enum_validation.2.1 sdkEx signerEx stub200 "ETH" (Json.num 2) srcEx none Json.null
      Json.null false "NOT_A_TYPE" (by decide)).1,
   (C4_amended_enum_validation.2.2 sdkEx signerEx stub200 "lastUpdatedX" (by decide)).1⟩

/-- C8: no operation mutates the client: `__init__` stores exactly the
supplied configuration, and every operation — returning normally or raising —
leaves `private_key`, `api_key`, `base_url` and `token_provider` as
constructed, so the client stays usable. -/
theorem C8_no_state_mutation :
    (∀ pk ak url : String,
      (fireblocksInit pk ak url).private_key = pk ∧
      (fireblocksInit pk ak url).api_key = ak ∧
      (fireblocksInit pk ak url).base_url = url ∧
      (fireblocksInit pk ak url).token_provider = ⟨pk, ak⟩) ∧
    (∀ (sdk : FireblocksSDK) (signer : Signer) (transport : Transport) (path : String) (body : Json),
      (get_request sdk signer transport path).sdkAfter = sdk ∧
      (delete_request sdk signer transport path).sdkAfter = sdk ∧
      (post_request sdk signer transport path body).sdkAfter = sdk ∧
      (put_request sdk signer transport path body).sdkAfter = sdk) ∧
    (∀ (sdk : FireblocksSDK) (signer : Signer) (transport : Transport) (before after : Int)
        (status : Option String) (limit : Option Int) (ob : Option String),
      (get_transactions sdk signer transport before after status limit ob).sdkAfter = sdk) ∧
    (∀ (sdk : FireblocksSDK) (signer : Signer) (transport : Transport) (asset : String)
        (amount : Json) (source : PyObj) (dest : Option PyObj) (fee gas : Json)
        (wfs : Bool) (tx : String),
      (create_transaction sdk signer transport asset amount source dest fee gas wfs tx).sdkAfter = sdk) := by
  refine ⟨fun pk ak url => ⟨rfl, rfl, rfl, rfl⟩,
    fun sdk signer transport path body => ⟨rfl, rfl, rfl, rfl⟩, ?_, ?_⟩
  · intro sdk signer transport before after status limit ob
    simp only [get_transactions]
    split <;> rfl
  · intro sdk signer transport asset amount source dest fee gas wfs tx
    cases dest <;> (simp only [create_transaction]; repeat' split) <;> rfl

/-- C9: with a valid `tx_type`, a `source` that is not a `TransferPeerPath`
instance makes `create_transaction` fail before any signer or transport call,
but with the `TypeError` raised by the error-message expression
`"..." + type(source)` rather than the documented `FireblocksApiException`;
likewise for a truthy `destination` of a disallowed type. -/
theorem C9_typeerror_in_validation :
    (∀ (sdk : FireblocksSDK) (signer : Signer) (transport : Transport) (asset : String)
        (amount : Json) (source : PyObj) (dest : Option PyObj) (fee gas : Json)
        (wfs : Bool) (tx : String),
      tx ∈ TRANSACTION_TYPES → isinstanceTransferPeerPath source = false →
      (create_transaction sdk signer transport asset amount source dest fee gas wfs tx).result =
        Except.error (PyError.typeErr STR_TYPE_CONCAT_TYPEERROR) ∧
      (create_transaction sdk signer transport asset amount source dest fee gas wfs tx).httpCalls = [] ∧
      (create_transaction sdk signer transport asset amount source dest fee gas wfs tx).signCalls = []) ∧
    (∀ (sdk : FireblocksSDK) (signer : Signer) (transport : Transport) (asset : String)
        (amount : Json) (source : PyObj) (d : PyObj) (fee gas : Json) (wfs : Bool) (tx : String),
      tx ∈ TRANSACTION_TYPES → isinstanceTransferPeerPath source = true →
      isinstanceEitherPeerPath d = false →
      (create_transaction sdk signer transport asset amount source (some d) fee gas wfs tx).result =
        Except.error (PyError.typeErr STR_TYPE_CONCAT_TYPEERROR) ∧
      (create_transaction sdk signer transport asset amount source (some d) fee gas wfs tx).httpCalls = [] ∧
      (create_transaction sdk signer transport asset amount source (some d) fee gas wfs tx).signCalls = []) := by
  constructor
  · intro sdk signer transport asset amount source dest fee gas wfs tx htx hsrc
    have hc : TRANSACTION_TYPES.contains tx = true := List.elem_eq_true_of_mem htx
    unfold create_transaction
    rw [hc, hsrc]
    exact ⟨rfl, rfl, rfl⟩
  · intro sdk signer transport asset amount source d fee gas wfs tx htx hsrc hd
    have hc : TRANSACTION_TYPES.contains tx = true := List.elem_eq_true_of_mem htx
    unfold create_transaction
    rw [hc, hsrc]
    refine ⟨?_, ?_, ?_⟩ <;> simp [hd]

/-- Witness for C9: a string passed as `source`, and an `int` passed as
`destination`, each with `tx_type = TRANSFER`. -/
theorem C9_typeerror_in_validation_witness :
    (create_transaction sdkEx signerEx stub200 "BTC" (Json.num 1)
      (PyObj.other "str" []) none Json.null Json.null false "TRANSFER").result =
      Except.error (PyError.typeErr STR_TYPE_CONCAT_TYPEERROR) ∧
    (create_transaction sdkEx signerEx stub200 "BTC" (Json.num 1) srcEx
      (some (PyObj.other "int" [])) Json.null Json.null false "TRANSFER").result =
      Except.error (PyError.typeErr STR_TYPE_CONCAT_TYPEERROR) :=
  ⟨(C9_typeerror_in_validation.1 sdkEx signerEx stub200 "BTC" (Json.num 1)
      (PyObj.other "str" []) none Json.null Json.null false "TRANSFER"
      (by decide) rfl).1,
   (C9_typeerror_in_validation.2 sdkEx signerEx stub200 "BTC" (Json.num 1) srcEx
      (PyObj.other "int" []) Json.null Json.null false "TRANSFER"
      (by decide) rfl rfl).1⟩

/-- C10: every falsy filter argument is omitted from the query string:
with `before = 0`, `after = 0`, `limit` zero or `None`, and `status` /
`order_by` `None` or empty, the signed and requested path is exactly
`/v1/transactions`, indistinguishable from omitting the parameters. -/
theorem C10_falsy_filters_omitted (sdk : FireblocksSDK) (signer : Signer)
    (transport : Transport) (status : Option String) (limit : Option Int)
    (ob : Option String) (h1 : status = none ∨ status = some "")
    (h2 : limit = none ∨ limit = some 0) (h3 : ob = none ∨ ob = some "") :
    (get_transactions sdk signer transport 0 0 status limit ob).signCalls =
      [⟨"/v1/transactions", none⟩] ∧
    (get_transactions sdk signer transport 0 0 status limit ob).httpCalls =
      [get_request_call sdk signer "/v1/transactions"] ∧
    get_transactions sdk signer transport 0 0 status limit ob =
      get_transactions sdk signer transport 0 0 none none none := by
  rcases h1 with rfl | rfl <;> rcases h2 with rfl | rfl <;> rcases h3 with rfl | rfl <;>
    exact ⟨rfl, rfl, rfl⟩

/-- Witness for C10: all falsy filters supplied explicitly. -/
theorem C10_falsy_filters_omitted_witness :
    (get_transactions sdkEx signerEx stub200 0 0 (some "") (some 0) (some "")).signCalls =
      [⟨"/v1/transactions", none⟩] ∧
    (get_transactions sdkEx signerEx stub200 0 0 (some "") (some 0) (some "")).httpCalls =
      [get_request_call sdkEx signerEx "/v1/transactions"] ∧
    get_transactions sdkEx signerEx stub200 0 0 (some "") (some 0) (some "") =
      get_transactions sdkEx signerEx stub200 0 0 none none none :=
  C10_falsy_filters_omitted sdkEx signerEx stub200 (some "") (some 0) (some "")
    (Or.inr rfl) (Or.inr rfl) (Or.inr rfl)
